import Mathlib

/-!
# Verification of the tuoshan terrain / flight-controller core

Shallow embedding of the algorithmic core of the repository:

* the procedural height field (`pseudoNoise`, `getHeight` from `src/utils/math.ts`,
  exported at the end of `src/components/Scene.tsx`),
* the ripple (splash) pool (`spawnRipple` and the per-frame ripple update in
  `src/components/Birds.tsx`),
* the flight controller tick (`useFrame` body of `CinematicParrot` in
  `src/components/Birds.tsx`).

Numeric values are modelled over an arbitrary linear ordered field where the
code needs only field arithmetic and comparisons (the ripple pool), and over
`ℝ` where the code calls `Math.sin` / `Math.cos` / `Math.sqrt` (the height
field and the controller).  JavaScript numbers are treated as exact reals.
-/

namespace Tuoshan

/-! ## Ripple pool (`src/components/Birds.tsx`, RIPPLE_CONFIG and spawnRipple) -/

/-- `RIPPLE_CONFIG.MAX_COUNT` -/
def MAX_COUNT : Nat := 5

/-- `RIPPLE_CONFIG.WAVES_PER_SPLASH` -/
def WAVES_PER_SPLASH : Nat := 1

/-- `RIPPLE_CONFIG.LIFE_DURATION` (2.0) -/
def LIFE_DURATION (α : Type) [LinearOrderedField α] : α := 2

/-- `RIPPLE_CONFIG.FADE_SPEED` (1.0) -/
def FADE_SPEED (α : Type) [LinearOrderedField α] : α := 1

/-- `RIPPLE_CONFIG.EXPANSION_SPEED` (25) -/
def EXPANSION_SPEED (α : Type) [LinearOrderedField α] : α := 25

/-- `RIPPLE_CONFIG.BASE_OPACITY` (0.1) -/
def BASE_OPACITY (α : Type) [LinearOrderedField α] : α := 1/10

/-- `RIPPLE_CONFIG.ENTRY_SCALE` (1.2) -/
def ENTRY_SCALE (α : Type) [LinearOrderedField α] : α := 12/10

/-- `RIPPLE_CONFIG.SKIM_SCALE` (0.4) -/
def SKIM_SCALE (α : Type) [LinearOrderedField α] : α := 4/10

/-- One pooled splash entry: `{pos, scale, life, maxLife, active}` in
`rippleData` of `Birds.tsx`. -/
structure RippleEntry (α : Type) where
  posX : α
  posY : α
  posZ : α
  scale : α
  life : α
  maxLife : α
  active : Bool
deriving DecidableEq

/-- The body of the `for` loop in `spawnRipple`: find the first inactive
entry (`rippleData.current.find(d => !d.active)`) and, if found, activate it
in place with the given scale and lifetime (`p.pos.set(x, -1.9, z)` etc.).
If every entry is active the pool is returned unchanged. -/
def spawnWave {α : Type} [LinearOrderedField α] (x z waveScale waveMaxLife : α) :
    List (RippleEntry α) → List (RippleEntry α)
  | [] => []
  | e :: rest =>
    if e.active then e :: spawnWave x z waveScale waveMaxLife rest
    else { posX := x, posY := -(19/10), posZ := z, scale := waveScale,
           maxLife := waveMaxLife, life := waveMaxLife, active := true } :: rest

/-- `spawnRipple(x, z, initialScale)` from `Birds.tsx`: runs
`WAVES_PER_SPLASH` waves, wave `i` using scale `initialScale * (0.8 + i*0.2)`
and lifetime `LIFE_DURATION + i * 0.5`. -/
def spawnRipple {α : Type} [LinearOrderedField α]
    (pool : List (RippleEntry α)) (x z initialScale : α) : List (RippleEntry α) :=
  (List.range WAVES_PER_SPLASH).foldl
    (fun p i => spawnWave x z (initialScale * (8/10 + (i : α) * (2/10)))
      (LIFE_DURATION α + (i : α) * (1/2)) p) pool

/-- The per-entry body of the ripple update loop in `useFrame`
(`Birds.tsx` lines 240-257): an active entry loses `dt * FADE_SPEED` life and
gains `dt * EXPANSION_SPEED` scale; if the decremented life is `≤ 0` it is
deactivated and its scale reset to 0; an inactive entry is untouched. -/
def tickEntry {α : Type} [LinearOrderedField α] (p : RippleEntry α) (dt : α) : RippleEntry α :=
  if p.active then
    let life := p.life - dt * FADE_SPEED α
    let scale := p.scale + dt * EXPANSION_SPEED α
    if life ≤ 0 then { p with active := false, scale := 0, life := life }
    else { p with life := life, scale := scale }
  else p

/-- The full ripple update pass (`rippleData.current.forEach`). -/
def rippleTick {α : Type} [LinearOrderedField α]
    (pool : List (RippleEntry α)) (dt : α) : List (RippleEntry α) :=
  pool.map (fun p => tickEntry p dt)

/-- Rendered brightness of an entry:
`Math.max(0, p.life / p.maxLife) * RIPPLE_CONFIG.BASE_OPACITY`. -/
def rippleOpacity {α : Type} [LinearOrderedField α] (p : RippleEntry α) : α :=
  max 0 (p.life / p.maxLife) * BASE_OPACITY α

/-- Number of active entries in a pool. -/
def countActive {α : Type} (pool : List (RippleEntry α)) : Nat :=
  pool.countP (fun e => e.active)

/-- Number of positions that are inactive in `old` and active in `new`
(entries newly activated between the two snapshots). -/
def newlyActivated {α : Type} (old new : List (RippleEntry α)) : Nat :=
  (old.zip new).countP (fun pr => !pr.1.active && pr.2.active)

/-- The pool as built in the `useMemo` initialiser: `MAX_COUNT` inactive
zeroed entries. -/
def initPool (α : Type) [LinearOrderedField α] : List (RippleEntry α) :=
  List.replicate MAX_COUNT
    { posX := 0, posY := 0, posZ := 0, scale := 0, life := 0, maxLife := 0, active := false }

/-- External operations the controller performs on the pool. -/
inductive PoolOp (α : Type) where
  | spawn (x z initialScale : α)
  | tick (dt : α)

/-- Interpretation of a pool operation. -/
def applyOp {α : Type} [LinearOrderedField α]
    (pool : List (RippleEntry α)) : PoolOp α → List (RippleEntry α)
  | .spawn x z s => spawnRipple pool x z s
  | .tick dt => rippleTick pool dt

/-- A sequence of pool operations applied from the left. -/
def applyOps {α : Type} [LinearOrderedField α]
    (pool : List (RippleEntry α)) (ops : List (PoolOp α)) : List (RippleEntry α) :=
  ops.foldl applyOp pool

/-! ### Basic pool lemmas -/

theorem length_spawnWave {α : Type} [LinearOrderedField α]
    (x z s m : α) (pool : List (RippleEntry α)) :
    (spawnWave x z s m pool).length = pool.length := by
  induction pool with
  | nil => rfl
  | cons e rest ih =>
    simp only [spawnWave]
    split <;> simp [ih]

theorem length_spawnRipple {α : Type} [LinearOrderedField α]
    (pool : List (RippleEntry α)) (x z s : α) :
    (spawnRipple pool x z s).length = pool.length := by
  simp [spawnRipple, WAVES_PER_SPLASH, List.range_succ, length_spawnWave]

theorem length_rippleTick {α : Type} [LinearOrderedField α]
    (pool : List (RippleEntry α)) (dt : α) :
    (rippleTick pool dt).length = pool.length := by
  simp [rippleTick]

theorem length_applyOp {α : Type} [LinearOrderedField α]
    (pool : List (RippleEntry α)) (op : PoolOp α) :
    (applyOp pool op).length = pool.length := by
  cases op <;> simp [applyOp, length_spawnRipple, length_rippleTick]

theorem length_applyOps {α : Type} [LinearOrderedField α]
    (pool : List (RippleEntry α)) (ops : List (PoolOp α)) :
    (applyOps pool ops).length = pool.length := by
  induction ops generalizing pool with
  | nil => rfl
  | cons op rest ih =>
    have h : applyOps pool (op :: rest) = applyOps (applyOp pool op) rest := rfl
    rw [h, ih, length_applyOp]

theorem countActive_le_length {α : Type} (pool : List (RippleEntry α)) :
    countActive pool ≤ pool.length := by
  induction pool with
  | nil => simp [countActive]
  | cons e rest ih =>
    simp only [countActive, List.countP_cons, List.length_cons] at ih ⊢
    split_ifs <;> omega

/-- Effect of one spawn wave on the number of active entries: one more when a
free slot exists, unchanged otherwise. -/
theorem countActive_spawnWave {α : Type} [LinearOrderedField α]
    (x z s m : α) (pool : List (RippleEntry α)) :
    countActive (spawnWave x z s m pool) =
      if countActive pool < pool.length then countActive pool + 1 else countActive pool := by
  induction pool with
  | nil => simp [spawnWave, countActive]
  | cons e rest ih =>
    have hle := countActive_le_length rest
    simp only [countActive] at ih hle ⊢
    by_cases he : e.active = true
    · simp only [spawnWave, he, if_true, List.countP_cons, List.length_cons, ih]
      split_ifs <;> omega
    · simp only [spawnWave, he, if_false, List.countP_cons, List.length_cons, he]
      simp only [he, if_false, if_true, Bool.not_eq_true] at *
      split_ifs <;> simp_all <;> omega

theorem countActive_spawnRipple {α : Type} [LinearOrderedField α]
    (pool : List (RippleEntry α)) (x z s : α) :
    countActive (spawnRipple pool x z s) =
      if countActive pool < pool.length then countActive pool + 1 else countActive pool := by
  simp [spawnRipple, WAVES_PER_SPLASH, List.range_succ, countActive_spawnWave]

/-- The ripple update never turns an inactive entry active. -/
theorem tickEntry_active_imp {α : Type} [LinearOrderedField α]
    (p : RippleEntry α) (dt : α) :
    (tickEntry p dt).active = true → p.active = true := by
  intro h
  by_contra he
  simp only [Bool.not_eq_true] at he
  simp [tickEntry, he] at h

/-- The ripple update pass never activates an entry. -/
theorem countActive_rippleTick_le {α : Type} [LinearOrderedField α]
    (pool : List (RippleEntry α)) (dt : α) :
    countActive (rippleTick pool dt) ≤ countActive pool := by
  simp only [rippleTick, countActive, List.countP_map]
  exact List.countP_mono_left (fun p _ h => tickEntry_active_imp p dt h)

/-! ## Height field (`src/utils/math.ts`)

`pseudoNoise` and `getHeight` are modelled over `ℝ`; JavaScript `Math.sin`,
`Math.cos`, `Math.sqrt`, `Math.abs` and `Math.pow(-, 2.0)` become `Real.sin`,
`Real.cos`, `Real.sqrt`, `|·|` and `^ 2` (the `pow` base `1 - dist` is
positive on the branch where it is used). -/

/-- `pseudoNoise(x, z)` from `math.ts`. -/
noncomputable def pseudoNoise (x z : ℝ) : ℝ :=
  (Real.sin (x * 0.05) * Real.cos (z * 0.05)) +
    (Real.sin (x * 0.15 + 100) * Real.cos (z * 0.15 + 100)) * 0.5

/-- Base rolling hills plus fine detail: `pseudoNoise(x,z)*6 + 12` and the
`Math.sin(x*0.5)*Math.cos(z*0.5)*1.0` ripple (first two summands of
`getHeight`). -/
noncomputable def baseHeight (x z : ℝ) : ℝ :=
  pseudoNoise x z * 6 + 12 + Real.sin (x * 0.5) * Real.cos (z * 0.5) * 1.0

/-- Mountain domain warp, x component (`warpX` in `getHeight`, with
`warpFreq = 0.04`, `warpAmp = 40`). -/
noncomputable def warpX (x z : ℝ) : ℝ :=
  Real.sin (x * 0.04) * 40 + Real.cos (z * 0.04 * 0.7) * 40 * 0.5

/-- Mountain domain warp, z component (`warpZ` in `getHeight`). -/
noncomputable def warpZ (x z : ℝ) : ℝ :=
  Real.cos (z * 0.04 * 0.8) * 40 + Real.sin (x * 0.04 * 0.5) * 40 * 0.5

/-- `distFromMountain` in `getHeight`: distance of the warped coordinate from
the mountain center `(250, -120)`. -/
noncomputable def distFromMountain (x z : ℝ) : ℝ :=
  Real.sqrt (((x - warpX x z) - 250) * ((x - warpX x z) - 250) +
    ((z - warpZ x z) - (-120)) * ((z - warpZ x z) - (-120)))

/-- Additive mountain contribution of `getHeight` (0 outside the
`mountainRadius = 160` influence disc): dome `shape * 140` plus
shape-modulated roughness. -/
noncomputable def mountainContrib (x z : ℝ) : ℝ :=
  if distFromMountain x z < 160 then
    (0.5 + 0.5 * Real.cos (distFromMountain x z / 160 * Real.pi)) * 140 +
      (pseudoNoise (x * 0.15) (z * 0.15) * 15 +
        |Real.sin (x * 0.05) * Real.cos (z * 0.05)| * 20) *
        (0.5 + 0.5 * Real.cos (distFromMountain x z / 160 * Real.pi))
  else 0

/-- Normalised elliptical lake distance `dist` in `getHeight`
(lake center `(-200, 80)`, radii `200` / `140`, sinusoidal shoreline
distortion). -/
noncomputable def lakeDist (x z : ℝ) : ℝ :=
  Real.sqrt
    ((x - (-200) + Real.sin (z * 0.1) * 15) * (x - (-200) + Real.sin (z * 0.1) * 15) /
        (200 * 200) +
      (z - 80 + Real.cos (x * 0.1) * 15) * (z - 80 + Real.cos (x * 0.1) * 15) /
        (140 * 140))

/-- Subtractive lake contribution of `getHeight`:
`Math.pow(1.0 - dist, 2.0) * 45` inside the `dist < 1.0` influence region. -/
noncomputable def lakeContrib (x z : ℝ) : ℝ :=
  if lakeDist x z < 1.0 then (1.0 - lakeDist x z) ^ 2 * 45 else 0

/-- `getHeight(x, z)` from `math.ts`: base terrain plus mountain, minus lake
carving, floored at `-12`. -/
noncomputable def getHeight (x z : ℝ) : ℝ :=
  let y := baseHeight x z + mountainContrib x z - lakeContrib x z
  if y < -12 then -12 else y

/-- The call sites sampling the height field: terrain mesh generation
(`Terrain.tsx`) … -/
noncomputable def terrainSample (x z : ℝ) : ℝ := getHeight x z

/-- … and the flight controller's avoidance step (`Birds.tsx`). -/
noncomputable def collisionSample (x z : ℝ) : ℝ := getHeight x z

/-! ### Height field bounds -/

/-- `|pseudoNoise| ≤ 1.5`, with the two summands bounded by 1 and 0.5. -/
theorem pseudoNoise_bound (x z : ℝ) :
    |Real.sin (x * 0.05) * Real.cos (z * 0.05)| ≤ 1 ∧
      |(Real.sin (x * 0.15 + 100) * Real.cos (z * 0.15 + 100)) * 0.5| ≤ 0.5 ∧
      |pseudoNoise x z| ≤ 1.5 := by
  have h1 : |Real.sin (x * 0.05) * Real.cos (z * 0.05)| ≤ 1 := by
    rw [abs_mul]
    calc |Real.sin (x * 0.05)| * |Real.cos (z * 0.05)| ≤ 1 * 1 := by
          apply mul_le_mul (Real.abs_sin_le_one _) (Real.abs_cos_le_one _)
            (abs_nonneg _) zero_le_one
      _ = 1 := by norm_num
  have h2 : |Real.sin (x * 0.15 + 100) * Real.cos (z * 0.15 + 100)| ≤ 1 := by
    rw [abs_mul]
    calc |Real.sin (x * 0.15 + 100)| * |Real.cos (z * 0.15 + 100)| ≤ 1 * 1 := by
          apply mul_le_mul (Real.abs_sin_le_one _) (Real.abs_cos_le_one _)
            (abs_nonneg _) zero_le_one
      _ = 1 := by norm_num
  have habs : |(0.5 : ℝ)| = 0.5 := abs_of_nonneg (by norm_num)
  refine ⟨h1, ?_, ?_⟩
  · rw [abs_mul, habs]
    calc |Real.sin (x * 0.15 + 100) * Real.cos (z * 0.15 + 100)| * (0.5 : ℝ)
        ≤ 1 * (0.5 : ℝ) := by
          exact mul_le_mul_of_nonneg_right h2 (by norm_num)
      _ = 0.5 := by norm_num
  · calc |pseudoNoise x z|
        ≤ |Real.sin (x * 0.05) * Real.cos (z * 0.05)| +
            |(Real.sin (x * 0.15 + 100) * Real.cos (z * 0.15 + 100)) * 0.5| :=
          abs_add _ _
      _ ≤ 1 + 0.5 := by
          apply add_le_add h1
          rw [abs_mul, habs]
          calc |Real.sin (x * 0.15 + 100) * Real.cos (z * 0.15 + 100)| * (0.5 : ℝ)
              ≤ 1 * (0.5 : ℝ) := mul_le_mul_of_nonneg_right h2 (by norm_num)
            _ ≤ 0.5 := by norm_num
      _ = 1.5 := by norm_num

/-- The base terrain term (before features) lies in `[2, 22]` (the spec's
`[3, 21]` band for `pseudoNoise*6 + 12` widened by the `±1` detail ripple). -/
theorem baseHeight_bound (x z : ℝ) : 2 ≤ baseHeight x z ∧ baseHeight x z ≤ 22 := by
  obtain ⟨-, -, hp⟩ := pseudoNoise_bound x z
  rw [abs_le] at hp
  have hd : |Real.sin (x * 0.5) * Real.cos (z * 0.5)| ≤ 1 := by
    rw [abs_mul]
    calc |Real.sin (x * 0.5)| * |Real.cos (z * 0.5)| ≤ 1 * 1 := by
          apply mul_le_mul (Real.abs_sin_le_one _) (Real.abs_cos_le_one _)
            (abs_nonneg _) zero_le_one
      _ = 1 := by norm_num
  rw [abs_le] at hd
  constructor <;> (simp only [baseHeight]; nlinarith [hp.1, hp.2, hd.1, hd.2])

/-- Near the lake center the warped mountain distance stays far outside the
mountain's influence radius, so the mountain contributes nothing. -/
theorem mountainContrib_near_lake (x z : ℝ) (hx : |x + 200| ≤ 1) :
    mountainContrib x z = 0 := by
  have hw : |warpX x z| ≤ 60 := by
    have h1 : |Real.sin (x * 0.04)| ≤ 1 := Real.abs_sin_le_one _
    have h2 : |Real.cos (z * 0.04 * 0.7)| ≤ 1 := Real.abs_cos_le_one _
    rw [abs_le] at h1 h2 ⊢
    constructor <;> (simp only [warpX]; nlinarith [h1.1, h1.2, h2.1, h2.2])
  have hdx : (x - warpX x z) - 250 ≤ -389 := by
    rw [abs_le] at hx hw
    linarith [hx.2, hw.1]
  have hge : (160 : ℝ) ≤ distFromMountain x z := by
    rw [distFromMountain]
    apply Real.le_sqrt_of_sq_le
    nlinarith [sq_nonneg ((z - warpZ x z) - (-120)), hdx]
  simp only [mountainContrib, not_lt.mpr hge, if_false]

/-- Near the lake center the normalised elliptical distance is at most
`0.14`. -/
theorem lakeDist_near_lake (x z : ℝ) (hx : |x + 200| ≤ 1) (hz : |z - 80| ≤ 1) :
    lakeDist x z ≤ 0.14 := by
  have hsx : |Real.sin (z * 0.1)| ≤ 1 := Real.abs_sin_le_one _
  have hcz : |Real.cos (x * 0.1)| ≤ 1 := Real.abs_cos_le_one _
  rw [abs_le] at hx hz hsx hcz
  have hlx : (x - (-200) + Real.sin (z * 0.1) * 15) *
      (x - (-200) + Real.sin (z * 0.1) * 15) ≤ 256 := by
    nlinarith [hx.1, hx.2, hsx.1, hsx.2]
  have hlz : (z - 80 + Real.cos (x * 0.1) * 15) *
      (z - 80 + Real.cos (x * 0.1) * 15) ≤ 256 := by
    nlinarith [hz.1, hz.2, hcz.1, hcz.2]
  have harg : (x - (-200) + Real.sin (z * 0.1) * 15) *
        (x - (-200) + Real.sin (z * 0.1) * 15) / (200 * 200) +
      (z - 80 + Real.cos (x * 0.1) * 15) * (z - 80 + Real.cos (x * 0.1) * 15) /
        (140 * 140) ≤ (0.14 : ℝ) ^ 2 := by
    have h1 : (x - (-200) + Real.sin (z * 0.1) * 15) *
        (x - (-200) + Real.sin (z * 0.1) * 15) / (200 * 200) ≤ 256 / (200 * 200) := by
      apply div_le_div_of_nonneg_right hlx (by norm_num) |>.trans_eq rfl
    have h2 : (z - 80 + Real.cos (x * 0.1) * 15) *
        (z - 80 + Real.cos (x * 0.1) * 15) / (140 * 140) ≤ 256 / (140 * 140) := by
      apply div_le_div_of_nonneg_right hlz (by norm_num) |>.trans_eq rfl
    calc _ ≤ (256 : ℝ) / (200 * 200) + 256 / (140 * 140) := add_le_add h1 h2
      _ ≤ (0.14 : ℝ) ^ 2 := by norm_num
  calc lakeDist x z ≤ Real.sqrt ((0.14 : ℝ) ^ 2) := Real.sqrt_le_sqrt harg
    _ = 0.14 := Real.sqrt_sq (by norm_num)

/-- The carved terrain near the lake center lies strictly below the water
plane `-2`. -/
theorem getHeight_near_lake (x z : ℝ) (hx : |x + 200| ≤ 1) (hz : |z - 80| ≤ 1) :
    getHeight x z < -2 := by
  have hbase := (baseHeight_bound x z).2
  have hm := mountainContrib_near_lake x z hx
  have hd := lakeDist_near_lake x z hx hz
  have hd0 : 0 ≤ lakeDist x z := Real.sqrt_nonneg _
  have hlake : (33 : ℝ) ≤ lakeContrib x z := by
    rw [lakeContrib, if_pos (by linarith : lakeDist x z < 1.0)]
    nlinarith [hd, hd0]
  rw [getHeight]
  simp only [hm]
  split_ifs with h
  · norm_num
  · linarith
/-! ### Height field claims -/

/-- C2: for all inputs `x` and `z`, `getHeight x z ≥ -12`: the final
elevation is floored at the fixed minimum `-12`, so no point sits lower than
this floor. -/
theorem getHeight_ge_neg_twelve (x z : ℝ) : -12 ≤ getHeight x z := by
  rw [getHeight]
  split_ifs with h
  · exact le_refl _
  · linarith [not_lt.mp h]

/-- C7: at the lake center coordinate `(-200, 80)` (`LAKE_CENTER` in
`Birds.tsx`), `getHeight` is strictly below the water plane `-2.0`: the lake
crater carves the terrain below water level at its center. -/
theorem getHeight_lakeCenter_below_water : getHeight (-200) 80 < -2 := by
  apply getHeight_near_lake
  · norm_num
  · norm_num

/-- C9: `|pseudoNoise x z| ≤ 1.5` for all `x, z` (first summand bounded by 1,
second by 0.5), so the base rolling-hill term `pseudoNoise(x,z)*6 + 12` —
before the fine-detail ripple and any feature contributions — always lies
within `[3, 21]`, strictly above the water plane `-2`. -/
theorem pseudoNoise_band (x z : ℝ) :
    |Real.sin (x * 0.05) * Real.cos (z * 0.05)| ≤ 1 ∧
    |(Real.sin (x * 0.15 + 100) * Real.cos (z * 0.15 + 100)) * 0.5| ≤ 0.5 ∧
    |pseudoNoise x z| ≤ 1.5 ∧
    3 ≤ pseudoNoise x z * 6 + 12 ∧ pseudoNoise x z * 6 + 12 ≤ 21 ∧
    (-2 : ℝ) < pseudoNoise x z * 6 + 12 := by
  obtain ⟨h1, h2, hp⟩ := pseudoNoise_bound x z
  have hp' := abs_le.mp hp
  exact ⟨h1, h2, hp, by linarith [hp'.1], by linarith [hp'.2], by linarith [hp'.1]⟩

/-- C8: `getHeight` is pure and deterministic — identical arguments always
yield the identical value, so the two independent consumers (terrain mesh
generation in `Terrain.tsx` and the avoidance step in `Birds.tsx`) agree at
every coordinate. -/
theorem getHeight_deterministic :
    (∀ x z x2 z2 : ℝ, x = x2 → z = z2 → getHeight x z = getHeight x2 z2) ∧
    ∀ x z : ℝ, terrainSample x z = collisionSample x z :=
  ⟨fun _ _ _ _ hx hz => by rw [hx, hz], fun _ _ => rfl⟩

/-- Witness for `getHeight_deterministic` at the concrete coordinate
`(1, 2)`. -/
theorem getHeight_deterministic_witness :
    getHeight 1 2 = getHeight 1 2 ∧ terrainSample 1 2 = collisionSample 1 2 :=
  ⟨getHeight_deterministic.1 1 2 1 2 rfl rfl, getHeight_deterministic.2 1 2⟩
/-! ## Flight controller (`src/components/Birds.tsx`, `CinematicParrot`)

The `useFrame` body is modelled as one pure `tick` over an `Actor` record.
The host-supplied inputs of a tick are the elapsed clock `time`, the frame
`delta` (clamped to `0.1` as in the source) and the value `rand` drawn by
`Math.random()` in the Skim state.  Rendering-only work (look-at, banking,
instanced-matrix writes, flap-rate lerp) has no effect on the simulated state
and is not part of the model. -/

/-- The `BirdState` union type. -/
inductive BirdState where
  | CINEMATIC_ENTRY
  | APPROACH_LAKE
  | DIVE_LAKE
  | SKIM
  | CLIMB_MOUNTAIN
  | DIVE_BOMB
  | PULL_UP
deriving DecidableEq

/-- `THREE.Vector3` restricted to the operations the controller uses. -/
structure Vec3 where
  x : ℝ
  y : ℝ
  z : ℝ

namespace Vec3

def add (a b : Vec3) : Vec3 := ⟨a.x + b.x, a.y + b.y, a.z + b.z⟩

def sub (a b : Vec3) : Vec3 := ⟨a.x - b.x, a.y - b.y, a.z - b.z⟩

/-- `multiplyScalar`. -/
def smul (a : Vec3) (c : ℝ) : Vec3 := ⟨a.x * c, a.y * c, a.z * c⟩

/-- `Vector3.length()`. -/
noncomputable def length (a : Vec3) : ℝ := Real.sqrt (a.x * a.x + a.y * a.y + a.z * a.z)

/-- `Vector3.normalize()`: `divideScalar(length() || 1)` — the zero vector is
left unchanged. -/
noncomputable def normalize (a : Vec3) : Vec3 :=
  a.smul (1 / (if a.length = 0 then 1 else a.length))

/-- `Vector3.setLength(l)`: `normalize().multiplyScalar(l)`. -/
noncomputable def setLength (a : Vec3) (l : ℝ) : Vec3 := a.normalize.smul l

/-- `Vector3.distanceTo`. -/
noncomputable def distanceTo (a b : Vec3) : ℝ := (a.sub b).length

/-- The `Vector2(x, z)` distance used for the Skim exit test. -/
noncomputable def distance2D (a b : Vec3) : ℝ :=
  Real.sqrt ((a.x - b.x) * (a.x - b.x) + (a.z - b.z) * (a.z - b.z))

end Vec3

/-- `LAKE_CENTER` in `Birds.tsx`. -/
def LAKE_CENTER : Vec3 := ⟨-200, -2, 80⟩

/-- `MOUNTAIN_FIRE_CENTER` in `Birds.tsx`. -/
def MOUNTAIN_FIRE_CENTER : Vec3 := ⟨180, 90, -60⟩

/-- `skimStart` (the lake entry point). -/
def skimStart : Vec3 := ⟨LAKE_CENTER.x + 20, -2, LAKE_CENTER.z - 10⟩

/-- `skimEnd` (the far-shore point). -/
def skimEnd : Vec3 := ⟨LAKE_CENTER.x + 75, -2, LAKE_CENTER.z - 30⟩

/-- `waterLevel`. -/
def waterLevel : ℝ := -2.0

/-- `THREE.MathUtils.lerp(x, y, t) = (1 - t) * x + t * y`. -/
def lerp (x y t : ℝ) : ℝ := (1 - t) * x + t * y

/-- The mutable controller state: `state`, `position`, `velocity`,
`lastSplashTime` and the ripple pool `rippleData`. -/
structure Actor where
  state : BirdState
  pos : Vec3
  vel : Vec3
  lastSplash : ℝ
  ripples : List (RippleEntry ℝ)

/-- `distToEntry`: horizontal distance from the actor to `skimStart`. -/
noncomputable def distToEntry (p : Vec3) : ℝ :=
  Real.sqrt ((p.x - skimStart.x) ^ 2 + (p.z - skimStart.z) ^ 2)

/-- The ripple trigger (`Birds.tsx` lines 104-113): while in `DIVE_LAKE`,
with horizontal distance to the entry point `< 25`, altitude `< -1.5` and the
2-second splash cooldown elapsed, spawn an entry-scale ripple and stamp
`lastSplashTime`. -/
noncomputable def triggerStep (a : Actor) (time : ℝ) : Actor :=
  if a.state = BirdState.DIVE_LAKE ∧ distToEntry a.pos < 25 ∧ a.pos.y < -1.5 ∧
      time - a.lastSplash > 2.0 then
    { a with ripples := spawnRipple a.ripples a.pos.x a.pos.z (ENTRY_SCALE ℝ),
             lastSplash := time }
  else a

/-- Output of the per-state block of the state machine: possibly-updated
state, the steering target, desired speed, turn speed, flap speed, and the
possibly-updated ripple pool / splash timestamp (the `DIVE_LAKE → SKIM`
transition and the probabilistic Skim splash both spawn ripples here). -/
structure SMOut where
  state : BirdState
  target : Vec3
  speed : ℝ
  turn : ℝ
  flap : ℝ
  ripples : List (RippleEntry ℝ)
  lastSplash : ℝ

/-- The state machine (`Birds.tsx` lines 115-182), evaluated on the
pre-tick state snapshot (`currentState`). -/
noncomputable def stateStep (st : BirdState) (pos : Vec3)
    (ripples : List (RippleEntry ℝ)) (lastSplash time rand : ℝ) : SMOut :=
  match st with
  | .CINEMATIC_ENTRY =>
    let target : Vec3 := ⟨MOUNTAIN_FIRE_CENTER.x, 140, MOUNTAIN_FIRE_CENTER.z⟩
    { state := if pos.distanceTo target < 80 then .DIVE_BOMB else st,
      target := target, speed := 100, turn := 2.0, flap := 3.0,
      ripples := ripples, lastSplash := lastSplash }
  | .APPROACH_LAKE =>
    let target : Vec3 := ⟨skimStart.x, 60, skimStart.z⟩
    { state := if pos.distanceTo target < 80 then .DIVE_LAKE else st,
      target := target, speed := 40, turn := 2.0, flap := 1.5,
      ripples := ripples, lastSplash := lastSplash }
  | .DIVE_LAKE =>
    let target : Vec3 := ⟨skimStart.x, -3.0, skimStart.z⟩
    if pos.y ≤ -1.5 ∨ pos.distanceTo target < 20 then
      if time - lastSplash > 2.0 then
        { state := .SKIM, target := target, speed := 90, turn := 3.0, flap := 1.5,
          ripples := spawnRipple ripples pos.x pos.z (ENTRY_SCALE ℝ),
          lastSplash := time }
      else
        { state := .SKIM, target := target, speed := 90, turn := 3.0, flap := 1.5,
          ripples := ripples, lastSplash := lastSplash }
    else
      { state := st, target := target, speed := 90, turn := 3.0, flap := 1.5,
        ripples := ripples, lastSplash := lastSplash }
  | .SKIM =>
    let target : Vec3 := ⟨skimEnd.x, -1.2 + Real.sin (time * 15) * 0.6, skimEnd.z⟩
    { state := if Vec3.distance2D pos target < 20 then .CLIMB_MOUNTAIN else st,
      target := target, speed := 70, turn := 2.0, flap := 4.0,
      ripples := if rand > 0.85 then spawnRipple ripples pos.x pos.z (SKIM_SCALE ℝ)
                 else ripples,
      lastSplash := lastSplash }
  | .CLIMB_MOUNTAIN =>
    let target : Vec3 := ⟨MOUNTAIN_FIRE_CENTER.x - 100, 200, MOUNTAIN_FIRE_CENTER.z + 50⟩
    { state := if pos.distanceTo target < 60 then .DIVE_BOMB else st,
      target := target, speed := 60, turn := 2.0, flap := 1.5,
      ripples := ripples, lastSplash := lastSplash }
  | .DIVE_BOMB =>
    let target : Vec3 := ⟨MOUNTAIN_FIRE_CENTER.x, 80, MOUNTAIN_FIRE_CENTER.z⟩
    { state := if pos.distanceTo target < 60 then .PULL_UP else st,
      target := target, speed := 90, turn := 2.0, flap := 0.5,
      ripples := ripples, lastSplash := lastSplash }
  | .PULL_UP =>
    let target : Vec3 := ⟨MOUNTAIN_FIRE_CENTER.x, 250, MOUNTAIN_FIRE_CENTER.z - 100⟩
    { state := if pos.y > 200 then .APPROACH_LAKE else st,
      target := target, speed := 60, turn := 2.0, flap := 2.5,
      ripples := ripples, lastSplash := lastSplash }

/-- Seek steering (`Birds.tsx` lines 189-195): steer the velocity toward the
target at the desired speed, then clamp its magnitude to the desired
speed. -/
noncomputable def steerVel (pos vel target : Vec3) (speed turn dt : ℝ) : Vec3 :=
  let desiredDir := (target.sub pos).normalize
  let steer := (desiredDir.smul speed).sub vel
  let v1 := vel.add (steer.smul (turn * dt))
  if v1.length > speed then v1.setLength speed else v1

/-- The safe altitude computed by the terrain-collision block
(`Birds.tsx` lines 200-213), as a function of the pre-tick state snapshot
and the sampled terrain height. -/
noncomputable def safeAltitude (st : BirdState) (terrainHeight : ℝ) : ℝ :=
  if terrainHeight < waterLevel then
    if st = BirdState.SKIM ∨ st = BirdState.DIVE_LAKE then waterLevel - 0.5
    else waterLevel + 2.0
  else
    if st = BirdState.SKIM then terrainHeight + 5.0 else terrainHeight + 2.0

/-- The collision correction (`Birds.tsx` lines 215-218): when the altitude
is below the safe altitude, ease it toward the safe value by
`lerp(y, safe, dt*10)` and damp any downward vertical velocity. -/
noncomputable def collideStep (st : BirdState) (pos vel : Vec3) (dt : ℝ) : Vec3 × Vec3 :=
  let safe := safeAltitude st (getHeight pos.x pos.z)
  if pos.y < safe then
    (⟨pos.x, lerp pos.y safe (dt * 10), pos.z⟩,
     ⟨vel.x, if vel.y < 0 then vel.y * 0.5 else vel.y, vel.z⟩)
  else (pos, vel)

/-- The state-machine output of a tick (the ripple trigger runs first and
may update the pool and splash timestamp read by the state machine). -/
noncomputable def smOf (a : Actor) (time rand : ℝ) : SMOut :=
  stateStep (triggerStep a time).state (triggerStep a time).pos
    (triggerStep a time).ripples (triggerStep a time).lastSplash time rand

/-- Velocity after the steering update of a tick. -/
noncomputable def midVel (a : Actor) (time delta rand : ℝ) : Vec3 :=
  steerVel (triggerStep a time).pos (triggerStep a time).vel (smOf a time rand).target
    (smOf a time rand).speed (smOf a time rand).turn (min delta 0.1)

/-- Position after the integration step of a tick, before the collision
correction. -/
noncomputable def midPos (a : Actor) (time delta rand : ℝ) : Vec3 :=
  (triggerStep a time).pos.add ((midVel a time delta rand).smul (min delta 0.1))

/-- One full controller tick (`useFrame` body): `dt = min(delta, 0.1)`,
ripple trigger, state machine, steering, integration, collision correction
(keyed on the pre-tick state snapshot, as in the source), then the ripple
ageing pass. -/
noncomputable def tick (a : Actor) (time delta rand : ℝ) : Actor :=
  { state := (smOf a time rand).state,
    pos := (collideStep a.state (midPos a time delta rand)
      (midVel a time delta rand) (min delta 0.1)).1,
    vel := (collideStep a.state (midPos a time delta rand)
      (midVel a time delta rand) (min delta 0.1)).2,
    lastSplash := (smOf a time rand).lastSplash,
    ripples := rippleTick (smOf a time rand).ripples (min delta 0.1) }

/-- The default initial actor: `CINEMATIC_ENTRY` at `(-200, 100, 100)` with
zero velocity, zero splash timestamp and an all-inactive pool. -/
noncomputable def initActor : Actor :=
  { state := BirdState.CINEMATIC_ENTRY, pos := ⟨-200, 100, 100⟩, vel := ⟨0, 0, 0⟩,
    lastSplash := 0, ripples := initPool ℝ }

/-- The transition structure of the state machine: every state's possible
successors, exactly the edges of the spec's table. -/
def allowedSuccessors : BirdState → List BirdState
  | .CINEMATIC_ENTRY => [.CINEMATIC_ENTRY, .DIVE_BOMB]
  | .APPROACH_LAKE => [.APPROACH_LAKE, .DIVE_LAKE]
  | .DIVE_LAKE => [.DIVE_LAKE, .SKIM]
  | .SKIM => [.SKIM, .CLIMB_MOUNTAIN]
  | .CLIMB_MOUNTAIN => [.CLIMB_MOUNTAIN, .DIVE_BOMB]
  | .DIVE_BOMB => [.DIVE_BOMB, .PULL_UP]
  | .PULL_UP => [.PULL_UP, .APPROACH_LAKE]

/-- Every transition the state machine can take follows the table's edges. -/
theorem stateStep_edges (st : BirdState) (pos : Vec3)
    (ripples : List (RippleEntry ℝ)) (lastSplash time rand : ℝ) :
    (stateStep st pos ripples lastSplash time rand).state ∈ allowedSuccessors st := by
  cases st <;> simp only [stateStep, allowedSuccessors] <;> split_ifs <;> simp
/-! ### Ripple pool claims -/

/-- Number of active entries after a spawn: capped increment. -/
theorem countActive_spawnRipple_min {α : Type} [LinearOrderedField α]
    (pool : List (RippleEntry α)) (x z s : α) :
    countActive (spawnRipple pool x z s) = min (countActive pool + 1) pool.length := by
  rw [countActive_spawnRipple]
  rcases lt_or_ge (countActive pool) pool.length with h | h
  · rw [if_pos h]
    omega
  · rw [if_neg (not_lt.mpr h)]
    have := countActive_le_length pool
    omega

theorem length_initPool (α : Type) [LinearOrderedField α] : (initPool α).length = 5 := by
  simp [initPool, MAX_COUNT]

theorem countActive_initPool (α : Type) [LinearOrderedField α] :
    countActive (initPool α) = 0 := by
  rw [countActive, List.countP_eq_zero]
  intro e he
  rw [List.eq_of_mem_replicate he]
  simp

/-- A spawn on a pool whose entries are all active is a no-op. -/
theorem spawnWave_all_active {α : Type} [LinearOrderedField α] (x z s m : α) :
    ∀ pool : List (RippleEntry α), (∀ e ∈ pool, e.active = true) →
      spawnWave x z s m pool = pool := by
  intro pool hall
  induction pool with
  | nil => rfl
  | cons e rest ih =>
    rw [spawnWave, if_pos (hall e (List.mem_cons_self e rest)),
      ih (fun d hd => hall d (List.mem_cons_of_mem e hd))]

/-- C3: the ripple pool holds exactly 5 entries and at most 5 are active at
every reachable pool state; six spawns with no ticks between leave exactly 5
active entries; a spawn request arriving when no entry is inactive leaves the
pool completely unchanged. -/
theorem ripplePool_capacity (α : Type) [LinearOrderedField α] :
    (∀ ops : List (PoolOp α),
      (applyOps (initPool α) ops).length = 5 ∧
        countActive (applyOps (initPool α) ops) ≤ 5) ∧
    (∀ a1 a2 a3 a4 a5 a6 : α × α × α,
      countActive (spawnRipple (spawnRipple (spawnRipple (spawnRipple (spawnRipple
        (spawnRipple (initPool α) a1.1 a1.2.1 a1.2.2) a2.1 a2.2.1 a2.2.2)
        a3.1 a3.2.1 a3.2.2) a4.1 a4.2.1 a4.2.2) a5.1 a5.2.1 a5.2.2)
        a6.1 a6.2.1 a6.2.2) = 5) ∧
    (∀ (pool : List (RippleEntry α)) (x z s : α),
      (∀ e ∈ pool, e.active = true) → spawnRipple pool x z s = pool) := by
  refine ⟨?_, ?_, ?_⟩
  · intro ops
    have hlen : (applyOps (initPool α) ops).length = 5 := by
      rw [length_applyOps, length_initPool]
    exact ⟨hlen, hlen ▸ countActive_le_length _⟩
  · intro a1 a2 a3 a4 a5 a6
    simp only [countActive_spawnRipple_min, length_spawnRipple, length_initPool,
      countActive_initPool]
    omega
  · intro pool x z s hall
    simp only [spawnRipple, WAVES_PER_SPLASH, List.range_succ, List.range_zero,
      List.nil_append, List.foldl_cons, List.foldl_nil]
    exact spawnWave_all_active _ _ _ _ pool hall

/-- A fully active 5-entry pool over `ℚ`. -/
def fullPoolQ : List (RippleEntry ℚ) :=
  List.replicate 5
    { posX := 0, posY := 0, posZ := 0, scale := 1, life := 1, maxLife := 1, active := true }

/-- Witness for `ripplePool_capacity` over `ℚ`: a concrete operation
sequence, six concrete spawns, and a spawn dropped on the concrete full
pool. -/
theorem ripplePool_capacity_witness :
    ((applyOps (initPool ℚ) [PoolOp.spawn 1 2 3, PoolOp.tick 1]).length = 5 ∧
      countActive (applyOps (initPool ℚ) [PoolOp.spawn 1 2 3, PoolOp.tick 1]) ≤ 5) ∧
    countActive (spawnRipple (spawnRipple (spawnRipple (spawnRipple (spawnRipple
      (spawnRipple (initPool ℚ) 1 1 1) 2 2 2) 3 3 3) 4 4 4) 5 5 5) 6 6 6) = 5 ∧
    spawnRipple fullPoolQ 7 8 9 = fullPoolQ := by
  refine ⟨(ripplePool_capacity ℚ).1 _, (ripplePool_capacity ℚ).2.1 (1,1,1) (2,2,2)
    (3,3,3) (4,4,4) (5,5,5) (6,6,6), (ripplePool_capacity ℚ).2.2 fullPoolQ 7 8 9 ?_⟩
  decide

/-- C4: the per-tick ripple ageing semantics.  The pass maps `tickEntry` over
the pool; an active entry's life drops by `dt * FADE_SPEED` and its scale
grows by `dt * EXPANSION_SPEED`; it is deactivated exactly when the
decremented life reaches or crosses zero, its scale then reset to 0; an
inactive entry is never touched (so never re-activated without a spawn); a
still-active entry's rendered opacity is
`max 0 (life / maxLife) * BASE_OPACITY`. -/
theorem rippleTick_spec (α : Type) [LinearOrderedField α]
    (pool : List (RippleEntry α)) (dt : α) (p : RippleEntry α) :
    rippleTick pool dt = pool.map (fun e => tickEntry e dt) ∧
    (p.active = true →
      (p.life - dt * FADE_SPEED α ≤ 0 →
        tickEntry p dt =
          { p with active := false, scale := 0, life := p.life - dt * FADE_SPEED α }) ∧
      (0 < p.life - dt * FADE_SPEED α →
        tickEntry p dt =
          { p with life := p.life - dt * FADE_SPEED α,
                   scale := p.scale + dt * EXPANSION_SPEED α } ∧
        rippleOpacity (tickEntry p dt) =
          max 0 ((p.life - dt * FADE_SPEED α) / p.maxLife) * BASE_OPACITY α) ∧
      ((tickEntry p dt).active = false ↔ p.life - dt * FADE_SPEED α ≤ 0)) ∧
    (p.active = false → tickEntry p dt = p) ∧
    rippleOpacity p = max 0 (p.life / p.maxLife) * BASE_OPACITY α := by
  refine ⟨rfl, ?_, ?_, rfl⟩
  · intro hact
    refine ⟨?_, ?_, ?_⟩
    · intro hle
      rw [tickEntry, if_pos hact]
      simp only [hle, if_pos]
    · intro hpos
      have hne : ¬(p.life - dt * FADE_SPEED α ≤ 0) := not_le.mpr hpos
      constructor
      · rw [tickEntry, if_pos hact]
        simp only [hne, if_neg, if_false]
      · rw [tickEntry, if_pos hact]
        simp only [hne, if_false, rippleOpacity]
    · constructor
      · intro hfalse
        by_contra hgt
        have hpos : 0 < p.life - dt * FADE_SPEED α := lt_of_not_le hgt
        rw [tickEntry, if_pos hact] at hfalse
        simp only [not_le.mpr hpos, if_false] at hfalse
        rw [hact] at hfalse
        exact absurd hfalse (by simp)
      · intro hle
        rw [tickEntry, if_pos hact]
        simp only [hle, if_pos]
  · intro hinact
    rw [tickEntry]
    rw [hinact]
    simp

/-- Witness for `rippleTick_spec` over `ℚ`: a concrete active entry that
survives the tick, a concrete one that dies, and a concrete inactive one. -/
theorem rippleTick_spec_witness :
    (tickEntry ({ posX := 0, posY := 0, posZ := 0, scale := 1, life := 2, maxLife := 2,
                   active := true } : RippleEntry ℚ) (1/2) =
      { posX := 0, posY := 0, posZ := 0, scale := 1 + (1/2) * 25, life := 2 - (1/2) * 1,
        maxLife := 2, active := true }) ∧
    (tickEntry ({ posX := 0, posY := 0, posZ := 0, scale := 1, life := 2, maxLife := 2,
                   active := true } : RippleEntry ℚ) 3 =
      { posX := 0, posY := 0, posZ := 0, scale := 0, life := 2 - 3 * 1,
        maxLife := 2, active := false }) ∧
    (tickEntry ({ posX := 0, posY := 0, posZ := 0, scale := 1, life := 2, maxLife := 2,
                   active := false } : RippleEntry ℚ) 3 =
      { posX := 0, posY := 0, posZ := 0, scale := 1, life := 2,
        maxLife := 2, active := false }) := by
  refine ⟨?_, ?_, ?_⟩
  · have h := (((rippleTick_spec ℚ [] (1/2)
      { posX := 0, posY := 0, posZ := 0, scale := 1, life := 2, maxLife := 2,
        active := true }).2.1 rfl).2.1 (by norm_num [FADE_SPEED])).1
    rw [h]
    norm_num [FADE_SPEED, EXPANSION_SPEED]
  · have h := ((rippleTick_spec ℚ [] 3
      { posX := 0, posY := 0, posZ := 0, scale := 1, life := 2, maxLife := 2,
        active := true }).2.1 rfl).1 (by norm_num [FADE_SPEED])
    rw [h]
    norm_num [FADE_SPEED]
  · exact (rippleTick_spec ℚ [] 3
      { posX := 0, posY := 0, posZ := 0, scale := 1, life := 2, maxLife := 2,
        active := false }).2.2.1 rfl
/-- `spawnWave` written as a functional update of the first inactive index. -/
theorem spawnWave_eq_set {α : Type} [LinearOrderedField α] (x z s m : α) :
    ∀ pool : List (RippleEntry α),
      spawnWave x z s m pool =
        match pool.findIdx? (fun e => !e.active) with
        | none => pool
        | some j =>
          pool.set j { posX := x, posY := -(19/10), posZ := z, scale := s,
                       maxLife := m, life := m, active := true } := by
  intro pool
  induction pool with
  | nil => rfl
  | cons e rest ih =>
    by_cases he : e.active = true
    · rw [spawnWave, if_pos he, List.findIdx?_cons]
      have hb : (!e.active) = false := by simp [he]
      rw [hb]
      simp only [Bool.false_eq_true, if_false]
      rw [ih]
      cases hfi : rest.findIdx? (fun e => !e.active) with
      | none => simp [hfi]
      | some j => simp [hfi]
    · rw [spawnWave, if_neg he, List.findIdx?_cons]
      have hb : (!e.active) = true := by simp [he]
      rw [hb]
      simp

/-- Entries holding an active ripple are untouched by a spawn wave. -/
theorem spawnWave_frame {α : Type} [LinearOrderedField α] (x z s m : α) :
    ∀ (pool : List (RippleEntry α)) (i : ℕ) (e : RippleEntry α),
      pool.get? i = some e → e.active = true →
      (spawnWave x z s m pool).get? i = some e := by
  intro pool
  induction pool with
  | nil => intro i e h _; simp at h
  | cons hd rest ih =>
    intro i e hget hact
    by_cases hhd : hd.active = true
    · rw [spawnWave, if_pos hhd]
      cases i with
      | zero => simpa using hget
      | succ n =>
        simp only [List.get?_cons_succ] at hget ⊢
        exact ih n e hget hact
    · rw [spawnWave, if_neg hhd]
      cases i with
      | zero =>
        simp only [List.get?_cons_zero, Option.some.injEq] at hget
        rw [← hget] at hact
        exact absurd hact hhd
      | succ n =>
        simp only [List.get?_cons_succ] at hget ⊢
        exact hget

/-- `spawnRipple` unfolded to its single wave (`WAVES_PER_SPLASH = 1`, so the
wave scale is `initialScale * 0.8` and the lifetime is `LIFE_DURATION`). -/
theorem spawnRipple_eq_spawnWave {α : Type} [LinearOrderedField α]
    (pool : List (RippleEntry α)) (x z s : α) :
    spawnRipple pool x z s = spawnWave x z (s * (8/10)) (2 : α) pool := by
  have h0 : spawnRipple pool x z s =
      spawnWave x z (s * (8/10 + ((0 : ℕ) : α) * (2/10)))
        (LIFE_DURATION α + ((0 : ℕ) : α) * (1/2)) pool := rfl
  rw [h0]
  norm_num [LIFE_DURATION]

/-- `spawnRipple` written as a functional update of the first inactive
index. -/
theorem spawnRipple_eq_set {α : Type} [LinearOrderedField α]
    (pool : List (RippleEntry α)) (x z s : α) :
    spawnRipple pool x z s =
      match pool.findIdx? (fun e => !e.active) with
      | none => pool
      | some j =>
        pool.set j { posX := x, posY := -(19/10), posZ := z, scale := s * (8/10),
                     maxLife := 2, life := 2, active := true } := by
  rw [spawnRipple_eq_spawnWave, spawnWave_eq_set]

/-- C10: a spawn call never modifies an entry holding an active ripple —
every entry active before `spawnRipple` keeps all its fields — and the call
writes (at most) the single first inactive entry, with the entry-wave scale
`initialScale * 0.8` and lifetime `LIFE_DURATION`. -/
theorem spawnRipple_frame (α : Type) [LinearOrderedField α]
    (pool : List (RippleEntry α)) (x z s : α) :
    (spawnRipple pool x z s =
      match pool.findIdx? (fun e => !e.active) with
      | none => pool
      | some j =>
        pool.set j { posX := x, posY := -(19/10), posZ := z, scale := s * (8/10),
                     maxLife := 2, life := 2, active := true }) ∧
    ∀ (i : ℕ) (e : RippleEntry α),
      pool.get? i = some e → e.active = true →
      (spawnRipple pool x z s).get? i = some e := by
  constructor
  · exact spawnRipple_eq_set pool x z s
  · intro i e hget hact
    rw [spawnRipple_eq_spawnWave]
    exact spawnWave_frame _ _ _ _ pool i e hget hact

/-- A concrete `ℚ` pool whose first entry is active and second is
inactive. -/
def mixedPoolQ : List (RippleEntry ℚ) :=
  [{ posX := 5, posY := -(19/10), posZ := 6, scale := 2, life := 1, maxLife := 2,
     active := true },
   { posX := 0, posY := 0, posZ := 0, scale := 0, life := 0, maxLife := 0,
     active := false },
   { posX := 0, posY := 0, posZ := 0, scale := 0, life := 0, maxLife := 0,
     active := false }]

/-- Witness for `spawnRipple_frame` over `ℚ`: on `mixedPoolQ` the spawn
writes index 1 (the first inactive slot) and index 0 keeps its active
entry. -/
theorem spawnRipple_frame_witness :
    (spawnRipple mixedPoolQ 7 8 2 =
      mixedPoolQ.set 1 { posX := 7, posY := -(19/10), posZ := 8, scale := 2 * (8/10),
                         maxLife := 2, life := 2, active := true }) ∧
    (spawnRipple mixedPoolQ 7 8 2).get? 0 = some
      { posX := 5, posY := -(19/10), posZ := 6, scale := 2, life := 1, maxLife := 2,
        active := true } := by
  constructor
  · have h := (spawnRipple_frame ℚ mixedPoolQ 7 8 2).1
    rw [h]
    have hfi : mixedPoolQ.findIdx? (fun e => !e.active) = some 1 := by decide
    rw [hfi]
  · exact (spawnRipple_frame ℚ mixedPoolQ 7 8 2).2 0
      { posX := 5, posY := -(19/10), posZ := 6, scale := 2, life := 1, maxLife := 2,
        active := true } rfl rfl
/-! ### Newly-activated counting lemmas -/

theorem newlyActivated_self {α : Type} (p : List (RippleEntry α)) :
    newlyActivated p p = 0 := by
  induction p with
  | nil => rfl
  | cons e rest ih =>
    simp only [newlyActivated, List.zip_cons_cons, List.countP_cons] at ih ⊢
    have hterm : (!e.active && e.active) = false := by
      cases e.active <;> rfl
    simp [hterm, ih]

theorem newlyActivated_rippleTick_self {α : Type} [LinearOrderedField α]
    (p : List (RippleEntry α)) (dt : α) :
    newlyActivated p (rippleTick p dt) = 0 := by
  induction p with
  | nil => rfl
  | cons e rest ih =>
    simp only [newlyActivated, rippleTick, List.map_cons, List.zip_cons_cons,
      List.countP_cons] at ih ⊢
    have hterm : (!e.active && (tickEntry e dt).active) = false := by
      by_cases he : e.active = true
      · simp [he]
      · rw [Bool.not_eq_true] at he
        have : tickEntry e dt = e := by rw [tickEntry, he]; simp
        rw [this, he]
        rfl
    simp [hterm, ih]

theorem newlyActivated_rippleTick_le {α : Type} [LinearOrderedField α]
    (p q : List (RippleEntry α)) (dt : α) :
    newlyActivated p (rippleTick q dt) ≤ newlyActivated p q := by
  induction p generalizing q with
  | nil => simp [newlyActivated]
  | cons a rest ih =>
    cases q with
    | nil => simp [newlyActivated, rippleTick]
    | cons b qrest =>
      simp only [newlyActivated, rippleTick, List.map_cons, List.zip_cons_cons,
        List.countP_cons] at ih ⊢
      have hterm : (!a.active && (tickEntry b dt).active) = true →
          (!a.active && b.active) = true := by
        intro h
        rw [Bool.and_eq_true] at h ⊢
        exact ⟨h.1, tickEntry_active_imp b dt h.2⟩
      have hih := ih qrest
      by_cases h1 : (!a.active && (tickEntry b dt).active) = true
      · rw [if_pos h1, if_pos (hterm h1)]
        omega
      · rw [if_neg h1]
        by_cases h2 : (!a.active && b.active) = true
        · rw [if_pos h2]
          omega
        · rw [if_neg h2]
          omega

theorem newlyActivated_set_le {α : Type} (v : RippleEntry α) :
    ∀ (p : List (RippleEntry α)) (j : ℕ), newlyActivated p (p.set j v) ≤ 1 := by
  intro p
  induction p with
  | nil => intro j; simp [newlyActivated]
  | cons a rest ih =>
    intro j
    cases j with
    | zero =>
      simp only [List.set_cons_zero, newlyActivated, List.zip_cons_cons, List.countP_cons]
      have h0 : List.countP (fun pr => !pr.1.active && pr.2.active) (rest.zip rest) = 0 :=
        newlyActivated_self rest
      rw [h0]
      split_ifs <;> omega
    | succ n =>
      simp only [List.set_cons_succ, newlyActivated, List.zip_cons_cons, List.countP_cons]
      have hterm : (!a.active && a.active) = false := by
        cases a.active <;> rfl
      rw [hterm]
      have hih := ih n
      simp only [newlyActivated] at hih
      simpa using hih

theorem newlyActivated_spawnRipple_le {α : Type} [LinearOrderedField α]
    (p : List (RippleEntry α)) (x z s : α) :
    newlyActivated p (spawnRipple p x z s) ≤ 1 := by
  rw [spawnRipple_eq_set]
  cases hfi : p.findIdx? (fun e => !e.active) with
  | none =>
    simp only
    rw [newlyActivated_self]
    omega
  | some j =>
    simp only
    exact newlyActivated_set_le _ p j
/-! ### DiveLake splash gating -/

/-- Characterisation of a `DIVE_LAKE` tick's effect on the pool and
`lastSplashTime` before ripple ageing: either nothing was spawned (cooldown
blocked, or neither spawn site's condition held) or exactly the entry-scale
spawn at the current position happened and the cooldown was restamped. -/
theorem smOf_diveLake (a : Actor) (time rand : ℝ)
    (hst : a.state = BirdState.DIVE_LAKE) :
    ((smOf a time rand).ripples = a.ripples ∧
      (smOf a time rand).lastSplash = a.lastSplash ∧
      ¬(time - a.lastSplash > 2.0 ∧
        ((distToEntry a.pos < 25 ∧ a.pos.y < -1.5) ∨ a.pos.y ≤ -1.5 ∨
          a.pos.distanceTo ⟨skimStart.x, -3.0, skimStart.z⟩ < 20))) ∨
    ((smOf a time rand).ripples =
        spawnRipple a.ripples a.pos.x a.pos.z (ENTRY_SCALE ℝ) ∧
      (smOf a time rand).lastSplash = time ∧
      time - a.lastSplash > 2.0 ∧
      ((distToEntry a.pos < 25 ∧ a.pos.y < -1.5) ∨ a.pos.y ≤ -1.5 ∨
        a.pos.distanceTo ⟨skimStart.x, -3.0, skimStart.z⟩ < 20)) := by
  by_cases hT : a.state = BirdState.DIVE_LAKE ∧ distToEntry a.pos < 25 ∧
      a.pos.y < -1.5 ∧ time - a.lastSplash > 2.0
  · obtain ⟨-, hd, hy, hcd⟩ := hT
    have ha1 : triggerStep a time =
        { a with ripples := spawnRipple a.ripples a.pos.x a.pos.z (ENTRY_SCALE ℝ),
                 lastSplash := time } := by
      rw [triggerStep, if_pos ⟨hst, hd, hy, hcd⟩]
    have h2 : smOf a time rand =
        stateStep a.state a.pos
          (spawnRipple a.ripples a.pos.x a.pos.z (ENTRY_SCALE ℝ)) time time rand := by
      rw [smOf, ha1]
    right
    rw [h2, hst]
    simp only [stateStep]
    rw [if_pos (Or.inl (le_of_lt hy))]
    rw [if_neg (by rw [sub_self]; norm_num : ¬(time - time > 2.0))]
    exact ⟨rfl, rfl, hcd, Or.inl ⟨hd, hy⟩⟩
  · have ha1 : triggerStep a time = a := by rw [triggerStep, if_neg hT]
    have h2 : smOf a time rand =
        stateStep a.state a.pos a.ripples a.lastSplash time rand := by
      rw [smOf, ha1]
    rw [h2, hst]
    by_cases htr : a.pos.y ≤ -1.5 ∨ a.pos.distanceTo ⟨skimStart.x, -3.0, skimStart.z⟩ < 20
    · by_cases hcd : time - a.lastSplash > 2.0
      · right
        simp only [stateStep]
        rw [if_pos htr, if_pos hcd]
        exact ⟨rfl, rfl, hcd, Or.inr htr⟩
      · left
        simp only [stateStep]
        rw [if_pos htr, if_neg hcd]
        refine ⟨rfl, rfl, ?_⟩
        rintro ⟨hcd2, -⟩
        exact hcd hcd2
    · left
      simp only [stateStep]
      rw [if_neg htr]
      refine ⟨rfl, rfl, ?_⟩
      rintro ⟨hcd2, hsite⟩
      rcases hsite with ⟨hd2, hy2⟩ | htr2
      · exact hT ⟨hst, hd2, hy2, hcd2⟩
      · exact htr htr2

/-- C5 (amended): in `DIVE_LAKE` a tick spawns at most one ripple; any spawn
requires the 2-second cooldown to have elapsed and one of the two spawn
sites' conditions (the dive-entry trigger: horizontal distance to the lake
entry point `< 25` and altitude `< -1.5`; or the transition to Skim:
altitude `≤ -1.5` or within 20 of the dive target); a cooldown-blocked tick
spawns nothing; a spawning tick restamps `lastSplashTime` with the current
time, and `lastSplashTime` is only ever kept or restamped — hence two
DiveLake-triggered spawn attempts within the cooldown interval of each other
produce only one new active ripple. -/
theorem diveLake_cooldown (a : Actor) (time delta rand : ℝ)
    (hst : a.state = BirdState.DIVE_LAKE) :
    newlyActivated a.ripples (tick a time delta rand).ripples ≤ 1 ∧
    (1 ≤ newlyActivated a.ripples (tick a time delta rand).ripples →
      time - a.lastSplash > 2.0 ∧
      ((distToEntry a.pos < 25 ∧ a.pos.y < -1.5) ∨ a.pos.y ≤ -1.5 ∨
        a.pos.distanceTo ⟨skimStart.x, -3.0, skimStart.z⟩ < 20)) ∧
    (¬time - a.lastSplash > 2.0 →
      newlyActivated a.ripples (tick a time delta rand).ripples = 0) ∧
    (1 ≤ newlyActivated a.ripples (tick a time delta rand).ripples →
      (tick a time delta rand).lastSplash = time) ∧
    ((tick a time delta rand).lastSplash = a.lastSplash ∨
      (tick a time delta rand).lastSplash = time) := by
  have hr : (tick a time delta rand).ripples
      = rippleTick (smOf a time rand).ripples (min delta 0.1) := rfl
  have hl : (tick a time delta rand).lastSplash = (smOf a time rand).lastSplash := rfl
  rcases smOf_diveLake a time rand hst with ⟨h1, h2, -⟩ | ⟨h1, h2, h3, h4⟩
  · rw [hr, hl, h1, h2]
    have h0 := newlyActivated_rippleTick_self a.ripples (min delta 0.1)
    exact ⟨by omega, fun hge => absurd hge (by omega), fun _ => h0,
      fun hge => absurd hge (by omega), Or.inl rfl⟩
  · rw [hr, hl, h1, h2]
    have hle1 : newlyActivated a.ripples
        (rippleTick (spawnRipple a.ripples a.pos.x a.pos.z (ENTRY_SCALE ℝ))
          (min delta 0.1)) ≤ 1 :=
      le_trans (newlyActivated_rippleTick_le _ _ _) (newlyActivated_spawnRipple_le _ _ _ _)
    exact ⟨hle1, fun _ => ⟨h3, h4⟩, fun hc => absurd h3 hc, fun _ => rfl, Or.inr rfl⟩
/-- The inactive entry the pool is initialised with. -/
def idleEntry : RippleEntry ℝ :=
  { posX := 0, posY := 0, posZ := 0, scale := 0, life := 0, maxLife := 0, active := false }

/-- A spawn into the fresh all-inactive pool followed by one ageing pass with
`dt < 2` leaves exactly one newly activated entry. -/
theorem newlyActivated_spawn_age_initPool (x z s dt : ℝ) (hdt : dt < 2) :
    newlyActivated (initPool ℝ) (rippleTick (spawnRipple (initPool ℝ) x z s) dt) = 1 := by
  have hip : initPool ℝ =
      idleEntry :: idleEntry :: idleEntry :: idleEntry :: idleEntry :: [] := rfl
  have hsp : spawnRipple (initPool ℝ) x z s =
      ({ posX := x, posY := -(19/10), posZ := z, scale := s * (8/10), maxLife := 2,
         life := 2, active := true } : RippleEntry ℝ) ::
        idleEntry :: idleEntry :: idleEntry :: idleEntry :: [] := by
    rw [spawnRipple_eq_spawnWave, hip, spawnWave, if_neg (by simp [idleEntry])]
  have hv : tickEntry ({ posX := x, posY := -(19/10), posZ := z, scale := s * (8/10),
                         maxLife := 2, life := 2, active := true } : RippleEntry ℝ) dt =
      { posX := x, posY := -(19/10), posZ := z,
        scale := s * (8/10) + dt * EXPANSION_SPEED ℝ, maxLife := 2,
        life := 2 - dt * FADE_SPEED ℝ, active := true } := by
    simp only [tickEntry, FADE_SPEED, if_pos]
    rw [if_neg (by linarith : ¬((2 : ℝ) - dt * 1 ≤ 0))]
  have hidle : tickEntry idleEntry dt = idleEntry := by
    simp [tickEntry, idleEntry]
  rw [hsp, hip]
  simp only [rippleTick, List.map_cons, List.map_nil, hv, hidle]
  simp [newlyActivated, idleEntry, List.countP_cons]

/-- The dive state the counterexample starts from: over the lake in
`DIVE_LAKE`, altitude `-1.6` (just under the water trigger), horizontal
distance 30 from the lake entry point, cooldown long expired, pool fresh. -/
noncomputable def aC5 : Actor :=
  { state := BirdState.DIVE_LAKE, pos := ⟨-150, -1.6, 70⟩, vel := ⟨0, 0, 0⟩,
    lastSplash := 0, ripples := initPool ℝ }

/-- C5 (counterexample): the `DIVE_LAKE → SKIM` transition spawn has no
distance gate — a tick of `aC5` at `time = 3` newly activates a ripple even
though the horizontal distance to the lake entry point is `30`, not below
the threshold `25`. -/
theorem diveLake_spawn_without_distance_gate :
    aC5.state = BirdState.DIVE_LAKE ∧
    ¬(distToEntry aC5.pos < 25) ∧
    newlyActivated aC5.ripples (tick aC5 3 0.1 0).ripples = 1 := by
  refine ⟨rfl, ?_, ?_⟩
  · have h900 : (aC5.pos.x - skimStart.x) ^ 2 + (aC5.pos.z - skimStart.z) ^ 2 = 900 := by
      norm_num [aC5, skimStart, LAKE_CENTER]
    rw [distToEntry, h900]
    rw [show (900 : ℝ) = 30 ^ 2 by norm_num, Real.sqrt_sq (by norm_num : (0:ℝ) ≤ 30)]
    norm_num
  · rcases smOf_diveLake aC5 3 0 rfl with ⟨-, -, hno⟩ | ⟨h1, -, -, -⟩
    · exact absurd ⟨by norm_num [aC5], Or.inr (Or.inl (by norm_num [aC5]))⟩ hno
    · have hr : (tick aC5 3 0.1 0).ripples
          = rippleTick (smOf aC5 3 0).ripples (min 0.1 0.1) := rfl
      rw [hr, h1, min_self]
      exact newlyActivated_spawn_age_initPool aC5.pos.x aC5.pos.z (ENTRY_SCALE ℝ) 0.1
        (by norm_num)
/-! ### Collision-avoidance easing (Skim over the lake) -/

/-- The skim state the collision counterexample starts from: hovering over
the lake center in `SKIM`, altitude `-3` (below the skim water offset
`-2.5`), at rest, pool fresh. -/
noncomputable def aC1 : Actor :=
  { state := BirdState.SKIM, pos := ⟨-200, -3, 80⟩, vel := ⟨0, 0, 0⟩,
    lastSplash := 0, ripples := initPool ℝ }

/-- Length of the vector from `aC1.pos` to the Skim target. -/
noncomputable def LC1 : ℝ := Vec3.length ⟨75, 1.8, -30⟩

theorem LC1_eq : LC1 = Real.sqrt 6528.24 := by
  rw [LC1, Vec3.length]
  norm_num

theorem LC1_bounds : 80 ≤ LC1 ∧ LC1 ≤ 81 := by
  rw [LC1_eq]
  constructor
  · exact Real.le_sqrt_of_sq_le (by norm_num)
  · calc Real.sqrt 6528.24 ≤ Real.sqrt (81 ^ 2) := Real.sqrt_le_sqrt (by norm_num)
      _ = 81 := Real.sqrt_sq (by norm_num)

theorem LC1_pos : 0 < LC1 := lt_of_lt_of_le (by norm_num) LC1_bounds.1

theorem LC1_sq : LC1 * LC1 = 6528.24 := by
  rw [LC1_eq]
  exact Real.mul_self_sqrt (by norm_num)

theorem aC1_trigger : triggerStep aC1 0 = aC1 := by
  rw [triggerStep, if_neg]
  rintro ⟨hstate, -⟩
  exact absurd hstate (by decide)

theorem aC1_sm : smOf aC1 0 0 =
    { state := BirdState.SKIM, target := ⟨-125, -1.2, 50⟩, speed := 70, turn := 2.0,
      flap := 4.0, ripples := initPool ℝ, lastSplash := 0 } := by
  rw [smOf, aC1_trigger]
  show stateStep BirdState.SKIM ⟨-200, -3, 80⟩ (initPool ℝ) 0 0 0 = _
  have hdist : ¬ (Vec3.distance2D ⟨-200, -3, 80⟩
      ⟨skimEnd.x, -1.2 + Real.sin (0 * 15) * 0.6, skimEnd.z⟩ < 20) := by
    rw [Vec3.distance2D]
    push_neg
    apply Real.le_sqrt_of_sq_le
    show (20 : ℝ) ^ 2 ≤ ((-200) - skimEnd.x) * ((-200) - skimEnd.x) +
      (80 - skimEnd.z) * (80 - skimEnd.z)
    norm_num [skimEnd, LAKE_CENTER]
  simp only [stateStep]
  rw [if_neg (by norm_num : ¬((0:ℝ) > 0.85)), if_neg hdist]
  simp [skimEnd, LAKE_CENTER, Real.sin_zero]
  norm_num
theorem aC1_vec_sub : Vec3.sub ⟨-125, -1.2, 50⟩ aC1.pos = ⟨75, 1.8, -30⟩ := by
  show Vec3.sub ⟨-125, -1.2, 50⟩ ⟨-200, -3, 80⟩ = _
  rw [Vec3.sub]
  norm_num

theorem aC1_len_ne : Vec3.length ⟨75, 1.8, -30⟩ ≠ 0 :=
  ne_of_gt LC1_pos

theorem aC1_midVel : midVel aC1 0 0.01 0 =
    ⟨105 * (1 / LC1), 2.52 * (1 / LC1), -42 * (1 / LC1)⟩ := by
  rw [midVel, aC1_trigger, aC1_sm]
  show steerVel aC1.pos aC1.vel ⟨-125, -1.2, 50⟩ 70 2.0 (min 0.01 0.1) = _
  rw [min_eq_left (by norm_num : (0.01 : ℝ) ≤ 0.1)]
  have hnorm : Vec3.normalize (Vec3.sub ⟨-125, -1.2, 50⟩ aC1.pos) =
      Vec3.smul ⟨75, 1.8, -30⟩ (1 / LC1) := by
    rw [aC1_vec_sub, Vec3.normalize, if_neg aC1_len_ne]
    rfl
  have hvel0 : aC1.vel = (⟨0, 0, 0⟩ : Vec3) := rfl
  have hv1 : Vec3.add aC1.vel
      (Vec3.smul (Vec3.sub (Vec3.smul (Vec3.smul ⟨75, 1.8, -30⟩ (1 / LC1)) 70) aC1.vel)
        (2.0 * 0.01)) = (⟨105 * (1 / LC1), 2.52 * (1 / LC1), -42 * (1 / LC1)⟩ : Vec3) := by
    rw [hvel0]
    simp only [Vec3.smul, Vec3.sub, Vec3.add, Vec3.mk.injEq]
    refine ⟨by ring, by ring, by ring⟩
  have hnogt : ¬ (Vec3.length ⟨105 * (1 / LC1), 2.52 * (1 / LC1), -42 * (1 / LC1)⟩ > 70) := by
    push_neg
    rw [Vec3.length]
    have harg : 105 * (1 / LC1) * (105 * (1 / LC1)) + 2.52 * (1 / LC1) * (2.52 * (1 / LC1)) +
        -42 * (1 / LC1) * (-42 * (1 / LC1)) = 1.96 := by
      have hL := LC1_sq
      have hne : LC1 ≠ 0 := ne_of_gt LC1_pos
      field_simp
      nlinarith [hL]
    rw [harg]
    calc Real.sqrt 1.96 ≤ Real.sqrt (70 ^ 2) := Real.sqrt_le_sqrt (by norm_num)
      _ = 70 := Real.sqrt_sq (by norm_num)
  rw [steerVel, hnorm, hv1, if_neg hnogt]

theorem aC1_midPos : midPos aC1 0 0.01 0 =
    ⟨-200 + 105 * (1 / LC1) * 0.01, -3 + 2.52 * (1 / LC1) * 0.01,
      80 + -42 * (1 / LC1) * 0.01⟩ := by
  rw [midPos, aC1_trigger, aC1_midVel, min_eq_left (by norm_num : (0.01 : ℝ) ≤ 0.1)]
  show Vec3.add ⟨-200, -3, 80⟩ _ = _
  rw [Vec3.smul, Vec3.add]
/-- C1 (counterexample): a `SKIM` tick of `aC1` with the normal
(non-clamped) frame delta `0.01` ends with altitude still far below the
skim-over-water safe threshold `-2.5` at the tick's final horizontal
position: the collision correction eases toward the threshold instead of
enforcing it within the tick. -/
theorem skim_tick_ends_below_safe :
    (0 : ℝ) < 0.01 ∧ (0.01 : ℝ) < 0.1 ∧
    (tick aC1 0 0.01 0).pos.y <
      safeAltitude aC1.state
        (getHeight (tick aC1 0 0.01 0).pos.x (tick aC1 0 0.01 0).pos.z) := by
  refine ⟨by norm_num, by norm_num, ?_⟩
  have hApos : 0 < 1 / LC1 := by
    rw [one_div]
    exact inv_pos.mpr LC1_pos
  have hAle : 1 / LC1 ≤ 1 / 80 :=
    one_div_le_one_div_of_le (by norm_num) LC1_bounds.1
  have hx : |(-200 + 105 * (1 / LC1) * 0.01 : ℝ) + 200| ≤ 1 := by
    rw [abs_le]
    constructor
    · nlinarith [hApos, hAle]
    · nlinarith [hApos, hAle]
  have hz : |(80 + -42 * (1 / LC1) * 0.01 : ℝ) - 80| ≤ 1 := by
    rw [abs_le]
    constructor
    · nlinarith [hApos, hAle]
    · nlinarith [hApos, hAle]
  have hth : getHeight (-200 + 105 * (1 / LC1) * 0.01) (80 + -42 * (1 / LC1) * 0.01) < -2 :=
    getHeight_near_lake _ _ hx hz
  have hwl : waterLevel = -2 := by norm_num [waterLevel]
  have hsafe : safeAltitude aC1.state
      (getHeight (-200 + 105 * (1 / LC1) * 0.01) (80 + -42 * (1 / LC1) * 0.01)) = -2.5 := by
    show safeAltitude BirdState.SKIM _ = -2.5
    rw [safeAltitude, if_pos (by rw [hwl]; exact hth), if_pos (Or.inl rfl)]
    norm_num [waterLevel]
  have hmy : (-3 + 2.52 * (1 / LC1) * 0.01 : ℝ) < -2.5 := by
    nlinarith [hApos, hAle]
  have hcoll1 : (tick aC1 0 0.01 0).pos =
      ⟨-200 + 105 * (1 / LC1) * 0.01,
        lerp (-3 + 2.52 * (1 / LC1) * 0.01) (-2.5) (0.01 * 10),
        80 + -42 * (1 / LC1) * 0.01⟩ := by
    show (collideStep aC1.state (midPos aC1 0 0.01 0) (midVel aC1 0 0.01 0)
      (min 0.01 0.1)).1 = _
    rw [aC1_midPos, aC1_midVel, min_eq_left (by norm_num : (0.01 : ℝ) ≤ 0.1)]
    simp only [collideStep]
    rw [hsafe]
    rw [if_pos hmy]
  rw [hcoll1]
  show lerp (-3 + 2.52 * (1 / LC1) * 0.01) (-2.5) (0.01 * 10) <
    safeAltitude aC1.state
      (getHeight (-200 + 105 * (1 / LC1) * 0.01) (80 + -42 * (1 / LC1) * 0.01))
  rw [hsafe, lerp]
  linarith [hmy]
/-- C1 (amended): with normal deltaTime (`0 < delta ≤ 0.1`), whenever the
integrated altitude is below the safe threshold derived from
`getHeight` at the tick's final horizontal position, the tick strictly
raises the altitude toward the threshold without overshooting it (and halves
any downward vertical velocity); when the integrated altitude is at or above
the threshold, position and velocity pass through unchanged.  The altitude
may therefore still be below the threshold at the end of the tick — the
correction is an easing, not a clamp. -/
theorem collision_eases_toward_safe (a : Actor) (time delta rand : ℝ)
    (h1 : 0 < delta) (h2 : delta ≤ 0.1) :
    ((midPos a time delta rand).y <
        safeAltitude a.state
          (getHeight (midPos a time delta rand).x (midPos a time delta rand).z) →
      (midPos a time delta rand).y < (tick a time delta rand).pos.y ∧
      (tick a time delta rand).pos.y ≤
        safeAltitude a.state
          (getHeight (midPos a time delta rand).x (midPos a time delta rand).z) ∧
      (tick a time delta rand).pos.x = (midPos a time delta rand).x ∧
      (tick a time delta rand).pos.z = (midPos a time delta rand).z ∧
      ((midVel a time delta rand).y < 0 →
        (tick a time delta rand).vel.y = (midVel a time delta rand).y * 0.5)) ∧
    (safeAltitude a.state
        (getHeight (midPos a time delta rand).x (midPos a time delta rand).z) ≤
        (midPos a time delta rand).y →
      (tick a time delta rand).pos = midPos a time delta rand ∧
      (tick a time delta rand).vel = midVel a time delta rand) := by
  have hdt : min delta 0.1 = delta := min_eq_left h2
  have hpos : (tick a time delta rand).pos = (collideStep a.state (midPos a time delta rand)
      (midVel a time delta rand) (min delta 0.1)).1 := rfl
  have hvel : (tick a time delta rand).vel = (collideStep a.state (midPos a time delta rand)
      (midVel a time delta rand) (min delta 0.1)).2 := rfl
  rw [hdt] at hpos hvel
  constructor
  · intro hlt
    have hcoll : collideStep a.state (midPos a time delta rand) (midVel a time delta rand)
        delta =
        (⟨(midPos a time delta rand).x,
          lerp (midPos a time delta rand).y
            (safeAltitude a.state
              (getHeight (midPos a time delta rand).x (midPos a time delta rand).z))
            (delta * 10),
          (midPos a time delta rand).z⟩,
         ⟨(midVel a time delta rand).x,
          if (midVel a time delta rand).y < 0 then (midVel a time delta rand).y * 0.5
          else (midVel a time delta rand).y,
          (midVel a time delta rand).z⟩) := by
      simp only [collideStep]
      rw [if_pos hlt]
    rw [hpos, hvel, hcoll]
    refine ⟨?_, ?_, rfl, rfl, ?_⟩
    · show (midPos a time delta rand).y < lerp (midPos a time delta rand).y
        (safeAltitude a.state
          (getHeight (midPos a time delta rand).x (midPos a time delta rand).z)) (delta * 10)
      rw [lerp]
      nlinarith [hlt, h1]
    · show lerp (midPos a time delta rand).y
        (safeAltitude a.state
          (getHeight (midPos a time delta rand).x (midPos a time delta rand).z))
        (delta * 10) ≤ _
      rw [lerp]
      nlinarith [hlt, h1, h2]
    · intro hneg
      show (if (midVel a time delta rand).y < 0 then (midVel a time delta rand).y * 0.5
        else (midVel a time delta rand).y) = (midVel a time delta rand).y * 0.5
      rw [if_pos hneg]
  · intro hge
    have hcoll : collideStep a.state (midPos a time delta rand) (midVel a time delta rand)
        delta = (midPos a time delta rand, midVel a time delta rand) := by
      simp only [collideStep]
      rw [if_neg (not_lt.mpr hge)]
    rw [hpos, hvel, hcoll]
    exact ⟨rfl, rfl⟩

/-- Witness for `collision_eases_toward_safe` at the concrete state `aC1`
with `delta = 0.01`. -/
theorem collision_eases_toward_safe_witness :
    (0 : ℝ) < 0.01 ∧ (0.01 : ℝ) ≤ 0.1 ∧
    (((midPos aC1 0 0.01 0).y <
        safeAltitude aC1.state
          (getHeight (midPos aC1 0 0.01 0).x (midPos aC1 0 0.01 0).z) →
      (midPos aC1 0 0.01 0).y < (tick aC1 0 0.01 0).pos.y ∧
      (tick aC1 0 0.01 0).pos.y ≤
        safeAltitude aC1.state
          (getHeight (midPos aC1 0 0.01 0).x (midPos aC1 0 0.01 0).z) ∧
      (tick aC1 0 0.01 0).pos.x = (midPos aC1 0 0.01 0).x ∧
      (tick aC1 0 0.01 0).pos.z = (midPos aC1 0 0.01 0).z ∧
      ((midVel aC1 0 0.01 0).y < 0 →
        (tick aC1 0 0.01 0).vel.y = (midVel aC1 0 0.01 0).y * 0.5)) ∧
    (safeAltitude aC1.state
        (getHeight (midPos aC1 0 0.01 0).x (midPos aC1 0 0.01 0).z) ≤
        (midPos aC1 0 0.01 0).y →
      (tick aC1 0 0.01 0).pos = midPos aC1 0 0.01 0 ∧
      (tick aC1 0 0.01 0).vel = midVel aC1 0 0.01 0)) :=
  ⟨by norm_num, by norm_num,
    collision_eases_toward_safe aC1 0 0.01 0 (by norm_num) (by norm_num)⟩

/-- Witness for `diveLake_cooldown` at the concrete state `aC5`. -/
theorem diveLake_cooldown_witness :
    aC5.state = BirdState.DIVE_LAKE ∧
    newlyActivated aC5.ripples (tick aC5 3 0.1 0).ripples ≤ 1 :=
  ⟨rfl, (diveLake_cooldown aC5 3 0.1 0 rfl).1⟩

end Tuoshan
